import Mathlib

/-!
Verification of the relay orchestration subsystem of the closeapi gateway:
the retry/failover loop of the `controller` package (`Relay`, `getChannel`,
`addUsedChannel`, `shouldRetry`) and the quota billing engine of the `relay`
package (`preConsumeQuota`, `returnPreConsumedQuota`, `postConsumeQuota`,
`getAndValidateTextRequest` in relay/relay-text.go).

Machine integers of the Go source are embedded as `Int` (Go `int`) or `Nat`
(token counts, status codes); `github.com/shopspring/decimal` values are
embedded as `Rat` (exact arithmetic, as the decimal library performs on
these operations).
-/

namespace CloseApi

/-- Channel fields the retry loop reads: identifier and provider type
(`model.Channel.Id` and `.Type`, as materialised by `getChannel`). -/
structure RelayChannel where
  id : Nat
  ctype : Nat
deriving DecidableEq, Repr

/-- Error shape inspected by the retry loop and the billing paths
(`dto.OpenAIErrorWithStatusCode`): error code, HTTP status code, and the
local-error marker set by `service.OpenAIErrorWrapperLocal`. -/
structure ErrorWithStatus where
  code : String
  statusCode : Nat
  localError : Bool
deriving DecidableEq, Repr

/-- Modelled from the spec: the Anthropic provider-family channel type
(`constant.ChannelTypeAnthropic` is declared outside src/). The concrete
numeral is immaterial: every theorem compares a channel type against this
constant, never against the numeral. -/
def ChannelTypeAnthropic : Nat := 14

/-- shouldRetry (controller, src/controller/channel_sync_test.go lines
465-506): classifies a completed failing attempt.  The Go function reads
`specific_channel_id` and `channel_type` from the request context; they are
passed here explicitly.  `retryTimes` is `common.RetryTimes - i`, a Go int. -/
def shouldRetry (specificChannelId : Bool) (channelType : Nat)
    (err : Option ErrorWithStatus) (retryTimes : Int) : Bool :=
  match err with
  | none => false
  | some e =>
    if e.localError then false
    else if retryTimes ≤ 0 then false
    else if specificChannelId then false
    else if e.statusCode = 429 then true
    else if e.statusCode = 307 then true
    else if e.statusCode / 100 = 5 then
      if e.statusCode = 504 ∨ e.statusCode = 524 then false else true
    else if e.statusCode = 400 then
      if channelType = ChannelTypeAnthropic then true else false
    else if e.statusCode = 408 then false
    else if e.statusCode / 100 = 2 then false
    else true

/-- Modelled from the spec: `model.CacheGetRandomSatisfiedChannel` is
declared outside src/.  Per spec §4.1 the selector draws a channel at
random among the candidates satisfying (group, model) whose identifier is
not in the exclusion set of already-tried channels; `channels` is the
satisfied candidate list and the random draw is abstracted by `pick`,
constrained in the theorems to return a member of its argument. -/
def selectRetryChannel (channels : List RelayChannel)
    (pick : List RelayChannel → Option RelayChannel)
    (used : List Nat) : Option RelayChannel :=
  pick (channels.filter (fun ch => !(used.contains ch.id)))

/-- getChannel (controller, src/controller/channel_sync_test.go lines
440-463): retryCount 0 returns the channel already pinned in the request
context; retryCount ≥ 1 selects a fresh satisfied channel from the cache. -/
def getChannel (ctxChannel : RelayChannel) (channels : List RelayChannel)
    (pick : List RelayChannel → Option RelayChannel)
    (used : List Nat) (retryCount : Nat) : Option RelayChannel :=
  if retryCount = 0 then some ctxChannel
  else selectRetryChannel channels pick used

/-- Outcome of a run of the `Relay` retry loop: the ordered used-channel
trail (context key `use_channel`), the number of attempts executed
(`relayRequest` calls), and the final error (`nil` on success). -/
structure RelayResult where
  trail : List Nat
  attempts : Nat
  finalErr : Option ErrorWithStatus
deriving DecidableEq, Repr

/-- Loop body of Relay (controller, src/controller/channel_sync_test.go
lines 227-290), iterations `i, i+1, ..., RetryTimes` with `fuel =
RetryTimes + 1 - i` iterations remaining.  Each iteration: `getChannel`
(break with a local get_channel_failed error on failure), `relayRequest`
(which first appends the channel id to the `use_channel` trail —
`addUsedChannel` — and then executes, abstracted by `exec`), return on
success, then `shouldRetry` decides between looping and breaking. -/
def relayGo (pick : List RelayChannel → Option RelayChannel)
    (exec : Nat → RelayChannel → Option ErrorWithStatus)
    (ctxChannel : RelayChannel) (channels : List RelayChannel)
    (specificChannelId : Bool) (R : Nat) :
    Nat → Nat → List Nat → Option ErrorWithStatus → RelayResult
  | 0, _, used, lastErr => ⟨used, 0, lastErr⟩
  | fuel + 1, i, used, _lastErr =>
    match getChannel ctxChannel channels pick used i with
    | none => ⟨used, 0, some ⟨"get_channel_failed", 500, true⟩⟩
    | some ch =>
      let used2 := used ++ [ch.id]
      match exec i ch with
      | none => ⟨used2, 1, none⟩
      | some e =>
        if shouldRetry specificChannelId ch.ctype (some e) ((R : Int) - (i : Int)) then
          let r := relayGo pick exec ctxChannel channels specificChannelId R
            fuel (i + 1) used2 (some e)
          ⟨r.trail, r.attempts + 1, r.finalErr⟩
        else ⟨used2, 1, some e⟩

/-- Relay (controller): the retry loop `for i := 0; i <= common.RetryTimes;
i++`, entered with attempt index 0 and an empty used-channel trail; `R` is
the configured `common.RetryTimes`. -/
def relayLoop (pick : List RelayChannel → Option RelayChannel)
    (exec : Nat → RelayChannel → Option ErrorWithStatus)
    (ctxChannel : RelayChannel) (channels : List RelayChannel)
    (specificChannelId : Bool) (R : Nat) : RelayResult :=
  relayGo pick exec ctxChannel channels specificChannelId R (R + 1) 0 [] none

/-- preConsumeQuota (src/relay/relay-text.go lines 321-361): balance
checks, the 100x trust-skip, and the reservation.  `userQuota` is the
balance read by `model.GetUserQuota` (its own failure path is external and
not modelled), `preConsumedQuota` the estimate from
`priceData.ShouldPreConsumedQuota`, `tokenQuota` the context value
`token_quota`, `tokenUnlimited` the credential flag.  The balance decrement
`model.DecreaseUserQuota` is declared outside src/ and is modelled from the
spec ("atomically decrement balance by the estimate", §4.5): the `.ok`
payload is (reservation, balance after pre-consumption). -/
def preConsumeQuota (userQuota preConsumedQuota tokenQuota : Int)
    (tokenUnlimited : Bool) : Except ErrorWithStatus (Int × Int) :=
  if userQuota ≤ 0 then
    .error ⟨"insufficient_user_quota", 403, true⟩
  else if userQuota - preConsumedQuota < 0 then
    .error ⟨"insufficient_user_quota", 403, true⟩
  else
    let pre2 :=
      if userQuota > 100 * preConsumedQuota then
        if !tokenUnlimited then
          if tokenQuota > 100 * preConsumedQuota then 0 else preConsumedQuota
        else 0
      else preConsumedQuota
    if pre2 > 0 then .ok (pre2, userQuota - pre2) else .ok (pre2, userQuota)

/-- Balance after `preConsumeQuota`: on the error paths the function
returns before `model.DecreaseUserQuota` runs, so the balance is the
unchanged `userQuota`. -/
def preConsumeFinalBalance (userQuota preConsumedQuota tokenQuota : Int)
    (tokenUnlimited : Bool) : Int :=
  match preConsumeQuota userQuota preConsumedQuota tokenQuota tokenUnlimited with
  | .ok (_, b) => b
  | .error _ => userQuota

/-- Reservation recorded by `preConsumeQuota`: zero on the error paths
(the function returns before `service.PreConsumeTokenQuota` runs). -/
def preConsumeReserved (userQuota preConsumedQuota tokenQuota : Int)
    (tokenUnlimited : Bool) : Int :=
  match preConsumeQuota userQuota preConsumedQuota tokenQuota tokenUnlimited with
  | .ok (r, _) => r
  | .error _ => 0

/-- Settlement delta of postConsumeQuota (src/relay/relay-text.go lines
529-535): `quotaDelta := quota - preConsumedQuota`, applied only when
nonzero.  Modelled from the spec for the effect of
`service.PostConsumeQuota` (declared outside src/): per §4.5 the delta is
applied to the balance in one atomic adjustment, a positive delta being an
additional charge. -/
def settleBalance (balance quota preConsumedQuota : Int) : Int :=
  let quotaDelta := quota - preConsumedQuota
  if quotaDelta ≠ 0 then balance - quotaDelta else balance

/-- Balance adjustments issued by returnPreConsumedQuota
(src/relay/relay-text.go lines 364-375): when the reservation is nonzero,
a single refund task calling `service.PostConsumeQuota` with
`-preConsumedQuota`; modelled from the spec, the refund adds the
reservation back to the balance. -/
def returnPreConsumedQuotaAdjustments (preConsumedQuota : Int) : List Int :=
  if preConsumedQuota ≠ 0 then [preConsumedQuota] else []

/-- Balance adjustments issued by the settlement path of postConsumeQuota
(src/relay/relay-text.go lines 529-535). -/
def settleAdjustments (quota preConsumedQuota : Int) : List Int :=
  if quota - preConsumedQuota ≠ 0 then [-(quota - preConsumedQuota)] else []

/-- Balance adjustments of one TextHelper attempt (src/relay/relay-text.go
lines 146-156 and 277-279): the pre-consumption debit when the reservation
is positive, then — exactly once, decided at the single function return by
the single deferred check of `openaiErr` — either the refund (when the
helper returns an error after the reservation) or the settlement delta. -/
def textHelperBalanceAdjustments (reserved : Int) (helperFailed : Bool)
    (quota : Int) : List Int :=
  (if reserved > 0 then [-reserved] else []) ++
    (if helperFailed then returnPreConsumedQuotaAdjustments reserved
     else settleAdjustments quota reserved)

/-- Price data resolved once per request (`helper.PriceData` as read by
postConsumeQuota): flat-price flag, flat model price, and the ratios. -/
structure PriceData where
  usePrice : Bool
  modelPrice : Rat
  modelRatio : Rat
  groupRatio : Rat
  completionRatio : Rat
  cacheRatio : Rat
  imageRatio : Rat
deriving DecidableEq, Repr

/-- Usage fields read by postConsumeQuota (`dto.Usage`). -/
structure Usage where
  promptTokens : Nat
  completionTokens : Nat
  cachedTokens : Nat
  imageTokens : Nat
  audioTokens : Nat
deriving DecidableEq, Repr

/-- Rounding of `decimal.Decimal.Round(0).IntPart()` from
github.com/shopspring/decimal: round to the nearest integer, halves away
from zero. -/
def decimalRound0 (q : Rat) : Int :=
  if 0 ≤ q then ⌊q + 1 / 2⌋ else -⌊1 / 2 - q⌋

/-- Base prompt tokens after the sub-category subtractions of
postConsumeQuota (src/relay/relay-text.go lines 463-487): cached tokens,
image tokens, and — when the per-million audio price resolved for the model
is positive — audio tokens. -/
def tokenBaseAfterSubtractions (u : Usage) (audioInputPrice : Rat) : Rat :=
  let b0 : Rat := (u.promptTokens : Rat)
  let b1 := if u.cachedTokens ≠ 0 then b0 - (u.cachedTokens : Rat) else b0
  let b2 := if u.imageTokens ≠ 0 then b1 - (u.imageTokens : Rat) else b1
  if u.audioTokens ≠ 0 ∧ 0 < audioInputPrice then b2 - (u.audioTokens : Rat) else b2

/-- Cached-token term of the prompt quota (lines 466-469). -/
def cachedTokensWithRatio (u : Usage) (p : PriceData) : Rat :=
  if u.cachedTokens ≠ 0 then (u.cachedTokens : Rat) * p.cacheRatio else 0

/-- Image-token term of the prompt quota (lines 472-476). -/
def imageTokensWithRatio (u : Usage) (p : PriceData) : Rat :=
  if u.imageTokens ≠ 0 then (u.imageTokens : Rat) * p.imageRatio else 0

/-- Separately billed audio-input quota (lines 479-487); the per-million
price comes from settings outside src/ and is a parameter. -/
def audioInputQuota (u : Usage) (p : PriceData)
    (audioInputPrice quotaPerUnit : Rat) : Rat :=
  if u.audioTokens ≠ 0 ∧ 0 < audioInputPrice then
    audioInputPrice / 1000000 * (u.audioTokens : Rat) * p.groupRatio * quotaPerUnit
  else 0

/-- Per-token charge before the clamp (src/relay/relay-text.go lines
488-492): (base + cached-with-ratio + image-with-ratio + completion ×
completion-ratio) × (model ratio × group ratio). -/
def tokenQuotaPreClamp (u : Usage) (p : PriceData) (audioInputPrice : Rat) : Rat :=
  let promptQuota := tokenBaseAfterSubtractions u audioInputPrice
      + cachedTokensWithRatio u p + imageTokensWithRatio u p
  let completionQuota := (u.completionTokens : Rat) * p.completionRatio
  (promptQuota + completionQuota) * (p.modelRatio * p.groupRatio)

/-- Clamp of src/relay/relay-text.go lines 494-496: when the combined
ratio is nonzero and the computed per-token charge is ≤ 0, the charge
becomes 1. -/
def tokenQuotaClamped (u : Usage) (p : PriceData) (audioInputPrice : Rat) : Rat :=
  let q := tokenQuotaPreClamp u p audioInputPrice
  if p.modelRatio * p.groupRatio ≠ 0 ∧ q ≤ 0 then 1 else q

/-- quotaCalculateDecimal of postConsumeQuota (src/relay/relay-text.go
lines 458-504): the per-token (clamped) or flat-price charge, plus the
already-computed web-search, file-search and audio-input add-ons (the tool
prices come from settings outside src/, so the tool charges are
parameters). -/
def quotaCalculateDecimal (u : Usage) (p : PriceData)
    (audioInputPrice quotaPerUnit webSearchQuota fileSearchQuota : Rat) : Rat :=
  let base := if !p.usePrice then tokenQuotaClamped u p audioInputPrice
              else p.modelPrice * quotaPerUnit * p.groupRatio
  base + webSearchQuota + fileSearchQuota
    + audioInputQuota u p audioInputPrice quotaPerUnit

/-- Final integer quota and the upstream-error flag (src/relay/relay-text.go
lines 506-527): round the decimal half away from zero; when
`promptTokens + completionTokens = 0` the quota is forced to 0 and the
event is flagged as a probable upstream error (`（可能是上游超时）` is
appended and `LogError` fires). -/
def postConsumeQuotaFinal (u : Usage) (p : PriceData)
    (audioInputPrice quotaPerUnit webSearchQuota fileSearchQuota : Rat) :
    Int × Bool :=
  let quota := decimalRound0
    (quotaCalculateDecimal u p audioInputPrice quotaPerUnit webSearchQuota fileSearchQuota)
  if u.promptTokens + u.completionTokens = 0 then (0, true) else (quota, false)

/-- Relay modes distinguished by getAndValidateTextRequest (the numeric
`relayconstant` values are declared outside src/; only their identity
matters to the validation switch). -/
inductive RelayMode
  | chatCompletions
  | completions
  | embeddings
  | moderations
  | edits
  | other
deriving DecidableEq, Repr

/-- Fields of `dto.GeneralOpenAIRequest` read by getAndValidateTextRequest.
`searchContextSize` is `none` when `WebSearchOptions` is nil, otherwise the
`SearchContextSize` string. -/
structure TextRequest where
  model : String
  maxTokens : Nat
  prompt : String
  messages : List String
  input : String
  instruction : String
  stream : Bool
  searchContextSize : Option String
deriving DecidableEq, Repr

/-- Go `math.MaxInt32`. -/
def MaxInt32 : Nat := 2147483647

/-- Model-name defaulting at the head of getAndValidateTextRequest
(src/relay/relay-text.go lines 37-42): moderations defaults an empty model
to text-moderation-latest, embeddings to the path parameter. -/
def resolveModel (mode : RelayMode) (paramModel : String) (req : TextRequest) :
    TextRequest :=
  let req1 := if mode = RelayMode.moderations ∧ req.model = "" then
      { req with model := "text-moderation-latest" } else req
  if mode = RelayMode.embeddings ∧ req1.model = "" then
    { req1 with model := paramModel } else req1

/-- Per-mode required-field switch of getAndValidateTextRequest
(src/relay/relay-text.go lines 64-82). -/
def validateByMode (mode : RelayMode) (req : TextRequest) :
    Except String TextRequest :=
  match mode with
  | .completions =>
    if req.prompt = "" then .error "field prompt is required" else .ok req
  | .chatCompletions =>
    if req.messages.length = 0 then .error "field messages is required" else .ok req
  | .embeddings => .ok req
  | .moderations =>
    if req.input = "" then .error "field input is required" else .ok req
  | .edits =>
    if req.instruction = "" then .error "field instruction is required" else .ok req
  | .other => .ok req

/-- getAndValidateTextRequest (src/relay/relay-text.go lines 31-85), after
a successful body unmarshal: model defaulting, the MaxInt32/2 bound on
max_tokens, the non-empty-model check, web-search context-size validation
and defaulting, and the per-mode required fields. -/
def getAndValidateTextRequest (mode : RelayMode) (paramModel : String)
    (req0 : TextRequest) : Except String TextRequest :=
  let req := resolveModel mode paramModel req0
  if req.maxTokens > MaxInt32 / 2 then .error "max_tokens is invalid"
  else if req.model = "" then .error "model is required"
  else
    match req.searchContextSize with
    | none => validateByMode mode req
    | some s =>
      if s ≠ "" then
        if s = "high" ∨ s = "medium" ∨ s = "low" then validateByMode mode req
        else .error "invalid search_context_size, must be one of: high, medium, low"
      else validateByMode mode { req with searchContextSize := some "medium" }

/-- Externally visible effects of the head of TextHelper that claim C10
distinguishes: a quota operation, or a call into the resolved adapter. -/
inductive TEffect
  | quotaOp
  | adapterCall
deriving DecidableEq, Repr

/-- Outcomes of the external collaborators TextHelper consults between
validation and the adapter call (sensitive-word setting and scan, model
mapping, token counting, price resolution), plus the inputs of
preConsumeQuota. -/
structure TextHelperEnv where
  sensitiveCheckEnabled : Bool
  sensitiveDetected : Bool
  modelMapErr : Bool
  countTokenErr : Bool
  priceErr : Bool
  shouldPreConsumedQuota : Int
  userQuota : Int
  tokenQuota : Int
  tokenUnlimited : Bool
deriving DecidableEq, Repr

/-- Head of TextHelper (src/relay/relay-text.go lines 90-238): the ordered
early-return ladder up to the first quota operation (preConsumeQuota) and
the adapter call, with the error each exit wraps.  A validation failure is
wrapped by `service.OpenAIErrorWrapperLocal` with code invalid_text_request
and HTTP status 400. -/
def textHelperTrace (mode : RelayMode) (paramModel : String)
    (req : TextRequest) (env : TextHelperEnv) :
    Option ErrorWithStatus × List TEffect :=
  match getAndValidateTextRequest mode paramModel req with
  | .error _ => (some ⟨"invalid_text_request", 400, true⟩, [])
  | .ok _ =>
    if env.sensitiveCheckEnabled ∧ env.sensitiveDetected then
      (some ⟨"sensitive_words_detected", 400, true⟩, [])
    else if env.modelMapErr then
      (some ⟨"model_mapped_error", 500, true⟩, [])
    else if env.countTokenErr then
      (some ⟨"count_token_messages_failed", 500, false⟩, [])
    else if env.priceErr then
      (some ⟨"model_price_error", 500, true⟩, [])
    else
      match preConsumeQuota env.userQuota env.shouldPreConsumedQuota
          env.tokenQuota env.tokenUnlimited with
      | .error e => (some e, [TEffect.quotaOp])
      | .ok _ => (none, [TEffect.quotaOp, TEffect.adapterCall])

/-- C2: the settlement applies `finalCharge - reservation` to the balance
in one adjustment (skipped when the delta is zero), so starting from a
balance already debited by the reservation, the end balance decreases by
exactly `finalCharge`, for every reservation (zero or positive). -/
theorem settle_applies_delta_of_charge_and_reservation
    (balance0 reservation finalCharge : Int) :
    settleBalance (balance0 - reservation) finalCharge reservation
      = balance0 - finalCharge := by
  simp only [settleBalance]
  split_ifs <;> omega

/-- C3: when a positive reservation was made and the helper returns an
error, the adjustment trace is exactly the debit followed by one refund of
the reservation (net zero); and in every case the net of all adjustments is
zero on failure and minus the final charge on success, so no reservation is
abandoned without a refund or a matching settlement. -/
theorem reservation_refunded_exactly_once (r quota : Int) (hr : 0 < r) :
    textHelperBalanceAdjustments r true quota = [-r, r]
    ∧ (textHelperBalanceAdjustments r true quota).sum = 0
    ∧ ∀ failed : Bool, (textHelperBalanceAdjustments r failed quota).sum
        = if failed then 0 else -quota := by
  have hne : r ≠ 0 := by omega
  refine ⟨?_, ?_, ?_⟩
  · simp [textHelperBalanceAdjustments, returnPreConsumedQuotaAdjustments, hr, hne]
  · simp [textHelperBalanceAdjustments, returnPreConsumedQuotaAdjustments, hr, hne]
  · intro failed
    cases failed <;>
      simp [textHelperBalanceAdjustments, returnPreConsumedQuotaAdjustments,
        settleAdjustments, hr, hne] <;>
      split_ifs <;> simp <;> omega

/-- Witness for C3 at reservation 5 and final charge 7. -/
theorem reservation_refunded_exactly_once_witness :
    textHelperBalanceAdjustments 5 true 7 = [-5, 5]
    ∧ (textHelperBalanceAdjustments 5 true 7).sum = 0
    ∧ ∀ failed : Bool, (textHelperBalanceAdjustments 5 failed 7).sum
        = if failed then 0 else -7 :=
  reservation_refunded_exactly_once 5 7 (by decide)

/-- C5: preConsumeQuota fails with the local 403 insufficient_user_quota
error exactly when the balance is ≤ 0 or balance − estimate < 0, and in
that case no reservation is made and the balance is unchanged. -/
theorem preconsume_insufficient_iff (u est tq : Int) (unl : Bool) :
    (preConsumeQuota u est tq unl
        = .error ⟨"insufficient_user_quota", 403, true⟩
      ↔ (u ≤ 0 ∨ u - est < 0))
    ∧ ((u ≤ 0 ∨ u - est < 0) →
        preConsumeFinalBalance u est tq unl = u
        ∧ preConsumeReserved u est tq unl = 0) := by
  unfold preConsumeFinalBalance preConsumeReserved preConsumeQuota
  split_ifs <;> simp_all <;> try omega
  all_goals split_ifs <;> simp_all <;> omega

/-- Witness for C5 at balance 0, estimate 5. -/
theorem preconsume_insufficient_iff_witness :
    (preConsumeQuota 0 5 0 false
        = .error ⟨"insufficient_user_quota", 403, true⟩
      ↔ ((0 : Int) ≤ 0 ∨ (0 : Int) - 5 < 0))
    ∧ (((0 : Int) ≤ 0 ∨ (0 : Int) - 5 < 0) →
        preConsumeFinalBalance 0 5 0 false = 0
        ∧ preConsumeReserved 0 5 0 false = 0) :=
  preconsume_insufficient_iff 0 5 0 false

/-- C4: under a solvent balance, the reservation is skipped exactly when
the balance strictly exceeds 100 times the estimate and either the
credential is unlimited or its token quota also strictly exceeds 100 times
the estimate; in every other case the reservation is the full estimate and
the balance is decremented by it. -/
theorem preconsume_trust_skip_or_full_reserve (u est tq : Int) (unl : Bool)
    (hpos : 0 < u) (hcov : 0 ≤ u - est) (hest : 0 ≤ est) :
    preConsumeQuota u est tq unl =
      (if 100 * est < u ∧ (unl = true ∨ 100 * est < tq)
       then .ok (0, u) else .ok (est, u - est)) := by
  unfold preConsumeQuota
  rcases unl <;> split_ifs <;> simp_all <;> try omega

/-- Witness for C4: the spec scenario balance 1000, estimate 5, unlimited
credential, where the reservation is skipped. -/
theorem preconsume_trust_skip_or_full_reserve_witness :
    preConsumeQuota 1000 5 0 true =
      (if 100 * (5 : Int) < 1000 ∧ (true = true ∨ 100 * (5 : Int) < 0)
       then .ok (0, 1000) else .ok (5, 1000 - 5)) :=
  preconsume_trust_skip_or_full_reserve 1000 5 0 true (by decide) (by decide)
    (by decide)

/-- C7: a settlement whose total token count (prompt plus completion) is
zero yields final charge 0 regardless of the price data, ratios and tool
charges, and the event is flagged as a probable upstream error. -/
theorem zero_total_tokens_forces_zero_charge (u : Usage) (p : PriceData)
    (aip qpu ws fs : Rat) (h : u.promptTokens + u.completionTokens = 0) :
    postConsumeQuotaFinal u p aip qpu ws fs = (0, true) := by
  unfold postConsumeQuotaFinal
  simp [h]

/-- Witness for C7 at zero usage and nontrivial ratios. -/
theorem zero_total_tokens_forces_zero_charge_witness :
    postConsumeQuotaFinal ⟨0, 0, 0, 0, 0⟩ ⟨false, 0, 3, 2, 1, 1, 1⟩
      0 500000 0 0 = (0, true) :=
  zero_total_tokens_forces_zero_charge ⟨0, 0, 0, 0, 0⟩
    ⟨false, 0, 3, 2, 1, 1, 1⟩ 0 500000 0 0 rfl

/-- C8: for a non-local failure on an unpinned channel with remaining
retry budget, a 5xx status retries, except the gateway-timeout statuses 504
and 524, which do not. -/
theorem retry_on_5xx_except_gateway_timeouts (ct : Nat) (code : String)
    (s : Nat) (r : Int) (h5 : 500 ≤ s) (h5b : s ≤ 599) (hr : 0 < r) :
    (shouldRetry false ct (some ⟨code, s, false⟩) r = true)
      ↔ (s ≠ 504 ∧ s ≠ 524) := by
  have h429 : ¬(s = 429) := by omega
  have h307 : ¬(s = 307) := by omega
  have hdiv : s / 100 = 5 := by omega
  have hrr : ¬(r ≤ 0) := by omega
  simp only [shouldRetry, hrr, h429, h307, hdiv]
  split_ifs <;> simp_all <;> omega

/-- Witness for C8 at statuses 504 (no retry) and 502 (retry). -/
theorem retry_on_5xx_except_gateway_timeouts_witness :
    ((shouldRetry false 0 (some ⟨"upstream_error", 504, false⟩) 3 = true)
      ↔ ((504 : Nat) ≠ 504 ∧ (504 : Nat) ≠ 524))
    ∧ ((shouldRetry false 0 (some ⟨"upstream_error", 502, false⟩) 3 = true)
      ↔ ((502 : Nat) ≠ 504 ∧ (502 : Nat) ≠ 524)) :=
  ⟨retry_on_5xx_except_gateway_timeouts 0 "upstream_error" 504 3 (by decide)
      (by decide) (by decide),
   retry_on_5xx_except_gateway_timeouts 0 "upstream_error" 502 3 (by decide)
      (by decide) (by decide)⟩

/-- C9: for a non-local 400 failure on an unpinned channel with remaining
retry budget, the decision is retry exactly when the channel's provider
family is the Anthropic channel type. -/
theorem retry_on_400_iff_anthropic (ct : Nat) (code : String) (r : Int)
    (hr : 0 < r) :
    (shouldRetry false ct (some ⟨code, 400, false⟩) r = true)
      ↔ ct = ChannelTypeAnthropic := by
  have hrr : ¬(r ≤ 0) := by omega
  simp only [shouldRetry, hrr]
  split_ifs <;> simp_all

/-- Witness for C9 at the Anthropic channel type (retry) and another type
(no retry). -/
theorem retry_on_400_iff_anthropic_witness :
    ((shouldRetry false ChannelTypeAnthropic
        (some ⟨"bad_request", 400, false⟩) 2 = true)
      ↔ ChannelTypeAnthropic = ChannelTypeAnthropic)
    ∧ ((shouldRetry false 1 (some ⟨"bad_request", 400, false⟩) 2 = true)
      ↔ (1 : Nat) = ChannelTypeAnthropic) :=
  ⟨retry_on_400_iff_anthropic ChannelTypeAnthropic "bad_request" 2 (by decide),
   retry_on_400_iff_anthropic 1 "bad_request" 2 (by decide)⟩

/-- C10: when the resolved model name is empty or max_tokens exceeds
MaxInt32/2, TextHelper rejects the request with the local 400
invalid_text_request error before any quota operation or adapter call. -/
theorem invalid_request_rejected_before_any_effect (mode : RelayMode)
    (paramModel : String) (req : TextRequest) (env : TextHelperEnv)
    (h : MaxInt32 / 2 < (resolveModel mode paramModel req).maxTokens
         ∨ (resolveModel mode paramModel req).model = "") :
    textHelperTrace mode paramModel req env
      = (some ⟨"invalid_text_request", 400, true⟩, []) := by
  unfold textHelperTrace getAndValidateTextRequest
  rcases h with h | h
  · simp [h]
  · by_cases hmax : MaxInt32 / 2 < (resolveModel mode paramModel req).maxTokens
    · simp [hmax]
    · simp [hmax, h]

/-- Witness for C10: a chat-completion request with an empty model name. -/
theorem invalid_request_rejected_before_any_effect_witness :
    textHelperTrace RelayMode.chatCompletions ""
        ⟨"", 0, "", ["hi"], "", "", false, none⟩
        ⟨false, false, false, false, false, 5, 1000, 0, false⟩
      = (some ⟨"invalid_text_request", 400, true⟩, []) :=
  invalid_request_rejected_before_any_effect RelayMode.chatCompletions ""
    ⟨"", 0, "", ["hi"], "", "", false, none⟩
    ⟨false, false, false, false, false, 5, 1000, 0, false⟩
    (Or.inr rfl)

/-- C6 counterexample: one prompt token fully cached at cache ratio 1/10
with model ratio 1/4 gives the positive per-token decimal charge 1/40,
which is below the smallest billable unit; the settlement does not clamp it
to 1 but rounds it to a final charge of 0 (the total token count is 1, so
the zero-token override does not apply either). -/
theorem positive_charge_below_unit_rounds_to_zero :
    0 < quotaCalculateDecimal ⟨1, 0, 1, 0, 0⟩
        ⟨false, 0, 1/4, 1, 1, 1/10, 1⟩ 0 500000 0 0
    ∧ quotaCalculateDecimal ⟨1, 0, 1, 0, 0⟩
        ⟨false, 0, 1/4, 1, 1, 1/10, 1⟩ 0 500000 0 0 < 1
    ∧ postConsumeQuotaFinal ⟨1, 0, 1, 0, 0⟩
        ⟨false, 0, 1/4, 1, 1, 1/10, 1⟩ 0 500000 0 0 = (0, false) := by
  refine ⟨?_, ?_, ?_⟩ <;>
    norm_num [postConsumeQuotaFinal, quotaCalculateDecimal, tokenQuotaClamped,
      tokenQuotaPreClamp, tokenBaseAfterSubtractions, cachedTokensWithRatio,
      imageTokensWithRatio, audioInputQuota, decimalRound0]

/-- C6 amended: under per-token pricing with nonzero model-times-group
ratio, the clamp to 1 fires exactly when the computed decimal charge is
zero or negative; with no tool or separate-audio add-ons and a nonzero
total token count the final charge is then 1. -/
theorem nonpositive_token_charge_clamped_to_one (u : Usage) (p : PriceData)
    (aip qpu : Rat) (hup : p.usePrice = false)
    (hratio : p.modelRatio * p.groupRatio ≠ 0)
    (hq : tokenQuotaPreClamp u p aip ≤ 0)
    (haudio : audioInputQuota u p aip qpu = 0)
    (htok : u.promptTokens + u.completionTokens ≠ 0) :
    postConsumeQuotaFinal u p aip qpu 0 0 = (1, false) := by
  unfold postConsumeQuotaFinal quotaCalculateDecimal tokenQuotaClamped
  rw [haudio, hup]
  simp only [Bool.not_false, if_true, if_pos (And.intro hratio hq), htok]
  norm_num [decimalRound0]

/-- Witness for the amended C6: two prompt tokens fully cached at cache
ratio 0 give a computed charge of 0, clamped to a final charge of 1. -/
theorem nonpositive_token_charge_clamped_to_one_witness :
    postConsumeQuotaFinal ⟨2, 0, 2, 0, 0⟩ ⟨false, 0, 1, 1, 1, 0, 1⟩
      0 500000 0 0 = (1, false) :=
  nonpositive_token_charge_clamped_to_one ⟨2, 0, 2, 0, 0⟩
    ⟨false, 0, 1, 1, 1, 0, 1⟩ 0 500000 rfl (by norm_num)
    (by norm_num [tokenQuotaPreClamp, tokenBaseAfterSubtractions,
      cachedTokensWithRatio, imageTokensWithRatio])
    (by norm_num [audioInputQuota]) (by decide)

/-- Invariant of the retry-loop body: starting at attempt index `i` with
trail `used` (empty when `i = 0`, duplicate-free in general) and at most
`fuel` iterations remaining, the loop executes at most `fuel` further
attempts, the trail grows by exactly one channel identifier per attempt,
and the trail stays duplicate-free — retry selection never returns an
already-used channel. -/
theorem relayGo_trail_invariant
    (pick : List RelayChannel → Option RelayChannel)
    (exec : Nat → RelayChannel → Option ErrorWithStatus)
    (ctxChannel : RelayChannel) (channels : List RelayChannel)
    (specificChannelId : Bool) (R : Nat)
    (hpick : ∀ l c, pick l = some c → c ∈ l) :
    ∀ (fuel i : Nat) (used : List Nat) (lastErr : Option ErrorWithStatus),
      used.Nodup → (i = 0 → used = []) →
      ((relayGo pick exec ctxChannel channels specificChannelId R fuel i used lastErr).trail.length
          = used.length
            + (relayGo pick exec ctxChannel channels specificChannelId R fuel i used lastErr).attempts)
      ∧ (relayGo pick exec ctxChannel channels specificChannelId R fuel i used lastErr).attempts ≤ fuel
      ∧ (relayGo pick exec ctxChannel channels specificChannelId R fuel i used lastErr).trail.Nodup := by
  intro fuel
  induction fuel with
  | zero =>
    intro i used lastErr hnd h0
    simp [relayGo, hnd]
  | succ fuel ih =>
    intro i used lastErr hnd h0
    rcases hg : getChannel ctxChannel channels pick used i with _ | ch
    · simp [relayGo, hg, hnd]
    · have hid : ch.id ∉ used ∨ used = [] := by
        rcases Nat.eq_zero_or_pos i with hi | hi
        · exact Or.inr (h0 hi)
        · left
          have hgc : getChannel ctxChannel channels pick used i
              = selectRetryChannel channels pick used := by
            unfold getChannel
            rw [if_neg (by omega)]
          rw [hgc] at hg
          unfold selectRetryChannel at hg
          have hmem := hpick _ _ hg
          have hf := List.mem_filter.mp hmem
          simpa using hf.2
      have hnd2 : (used ++ [ch.id]).Nodup := by
        rcases hid with hid | hid
        · simp [List.nodup_append, hnd, hid]
        · subst hid; simp
      rcases he : exec i ch with _ | e
      · simp [relayGo, hg, he, hnd2]
      · by_cases hsr : shouldRetry specificChannelId ch.ctype (some e)
            ((R : Int) - (i : Int)) = true
        · have hrec := ih (i + 1) (used ++ [ch.id]) (some e) hnd2 (by omega)
          simp only [relayGo, hg, he, hsr, if_true]
          obtain ⟨h1, h2, h3⟩ := hrec
          simp only [List.length_append, List.length_singleton] at h1
          refine ⟨by omega, by omega, h3⟩
        · simp [relayGo, hg, he, hsr, hnd2]

/-- C1: with retry budget R, a run of the Relay loop executes at most R+1
attempts, each attempt appends exactly one selected channel identifier to
the used-channel trail (trail length = number of attempts), and the trail
is duplicate-free, so no channel is ever tried twice in one request. -/
theorem relay_budget_and_distinct_trail
    (pick : List RelayChannel → Option RelayChannel)
    (exec : Nat → RelayChannel → Option ErrorWithStatus)
    (ctxChannel : RelayChannel) (channels : List RelayChannel)
    (specificChannelId : Bool) (R : Nat)
    (hpick : ∀ l c, pick l = some c → c ∈ l) :
    ((relayLoop pick exec ctxChannel channels specificChannelId R).trail.length
        = (relayLoop pick exec ctxChannel channels specificChannelId R).attempts)
    ∧ (relayLoop pick exec ctxChannel channels specificChannelId R).attempts ≤ R + 1
    ∧ (relayLoop pick exec ctxChannel channels specificChannelId R).trail.Nodup := by
  have h := relayGo_trail_invariant pick exec ctxChannel channels
    specificChannelId R hpick (R + 1) 0 [] none (by simp) (fun _ => rfl)
  simpa [relayLoop] using h

/-- Witness for C1: budget R = 2, context channel 1, cache candidates
1, 2, 3, first-candidate selection, every attempt failing with 429. -/
theorem relay_budget_and_distinct_trail_witness :
    ((relayLoop (fun l => l.head?) (fun _ _ => some ⟨"e", 429, false⟩)
        ⟨1, 0⟩ [⟨1, 0⟩, ⟨2, 0⟩, ⟨3, 0⟩] false 2).trail.length
      = (relayLoop (fun l => l.head?) (fun _ _ => some ⟨"e", 429, false⟩)
        ⟨1, 0⟩ [⟨1, 0⟩, ⟨2, 0⟩, ⟨3, 0⟩] false 2).attempts)
    ∧ (relayLoop (fun l => l.head?) (fun _ _ => some ⟨"e", 429, false⟩)
        ⟨1, 0⟩ [⟨1, 0⟩, ⟨2, 0⟩, ⟨3, 0⟩] false 2).attempts ≤ 2 + 1
    ∧ (relayLoop (fun l => l.head?) (fun _ _ => some ⟨"e", 429, false⟩)
        ⟨1, 0⟩ [⟨1, 0⟩, ⟨2, 0⟩, ⟨3, 0⟩] false 2).trail.Nodup :=
  relay_budget_and_distinct_trail (fun l => l.head?)
    (fun _ _ => some ⟨"e", 429, false⟩) ⟨1, 0⟩ [⟨1, 0⟩, ⟨2, 0⟩, ⟨3, 0⟩]
    false 2
    (fun l c h => by cases l with
      | nil => simp at h
      | cons a t =>
        simp only [List.head?_cons, Option.some.injEq] at h
        simp [h])

end CloseApi
